import Mathlib

/-!
Shallow embedding of the scheduling / caching / fan-out core of
github.com/sjzsdu/utils (crawler engine, in-memory scheduler, TTL cache),
with theorems checking the specification's claims against it.

Conventions of the embedding:
* Go time instants and durations are `Int` nanoseconds (`time.Now().UnixNano()`);
  every operation that reads the clock takes the current instant `now` explicitly.
* Go maps become association lists with `List.find?` lookup; `map[k] = v`
  prepends the binding after removing the old one, `delete` filters it out.
* Go `error` results become `Option GoErr` (or `Except GoErr` when a value is
  also returned); `nil` error is `none`.
* A Go slice result that may be `nil` is `Option (List _)`, `none` for `nil`.
* Goroutines/channels: a subscriber channel is its bounded buffer (a `Chan`);
  a non-blocking send (`select`/`default`) is `Chan.trySend`.
-/

namespace models

/-- models.Item: the structured record produced by a Source's parse step.
Timestamps (`time.Time`) are Unix nanoseconds. -/
structure Item where
  ID : String
  Title : String
  URL : String
  Content : String
  Source : String
  Category : String
  Images : List String
  PublishedAt : Int
  CreatedAt : Int
  UpdatedAt : Int
deriving Repr, DecidableEq, Inhabited

end models

namespace cache

open models

/-- Sentinel and formatted errors of the core (Go `error` values). -/
inductive GoErr where
  | msg (s : String)
  | taskExists
  | taskNotFound
  | schedulerRunning
  | schedulerStopped
deriving Repr, DecidableEq

/-- cache.item: one cache entry, value plus expiration instant in Unix
nanoseconds (0 when the entry never expires). -/
structure CacheItem where
  value : List Item
  expiration : Int
deriving Repr, DecidableEq

/-- cache.MemoryCache: the entry map (the ticker and stop channel of the
background sweep are not part of the value state; the sweep body is
`deleteExpired`). -/
structure MemoryCache where
  items : List (String × CacheItem)
deriving Repr, DecidableEq

/-- cache.NewMemoryCache: starts with an empty entry map. -/
def NewMemoryCache : MemoryCache := ⟨[]⟩

/-- MemoryCache.Get: returns (nil, nil) when the key is absent or the entry
is expired (`expiration > 0 && now > expiration`), else (value, nil). -/
def MemoryCache.Get (c : MemoryCache) (now : Int) (key : String) :
    Option (List Item) × Option GoErr :=
  match c.items.find? (fun p => p.1 == key) with
  | none => (none, none)
  | some p =>
    if 0 < p.2.expiration ∧ p.2.expiration < now then (none, none)
    else (some p.2.value, none)

/-- MemoryCache.Set: stores value under key; expiration instant is
`now + expiration` when the duration is positive, else 0 (never expires).
Overwrites any existing binding. Always returns nil error. -/
def MemoryCache.Set (c : MemoryCache) (now : Int) (key : String)
    (value : List Item) (expiration : Int) : MemoryCache × Option GoErr :=
  let exp : Int := if 0 < expiration then now + expiration else 0
  (⟨(key, ⟨value, exp⟩) :: c.items.filter (fun p => !(p.1 == key))⟩, none)

/-- MemoryCache.Delete: removes the binding for key. Always nil error. -/
def MemoryCache.Delete (c : MemoryCache) (key : String) :
    MemoryCache × Option GoErr :=
  (⟨c.items.filter (fun p => !(p.1 == key))⟩, none)

/-- MemoryCache.Clear: removes every binding. Always nil error. -/
def MemoryCache.Clear (_ : MemoryCache) : MemoryCache × Option GoErr :=
  (⟨[]⟩, none)

/-- MemoryCache.deleteExpired: the body of one background-sweep tick at
instant now; removes every entry with `expiration > 0 && now > expiration`. -/
def MemoryCache.deleteExpired (c : MemoryCache) (now : Int) : MemoryCache :=
  ⟨c.items.filter (fun p => !(decide (0 < p.2.expiration) && decide (p.2.expiration < now)))⟩

/-- One public mutating cache operation, with the clock instant it observes. -/
inductive CacheOp where
  | setOp (now : Int) (key : String) (value : List Item) (expiration : Int)
  | deleteOp (key : String)
  | clearOp
  | sweepOp (now : Int)
deriving Repr

/-- Apply one cache operation. -/
def applyOp (c : MemoryCache) : CacheOp → MemoryCache
  | .setOp now k v exp => (c.Set now k v exp).1
  | .deleteOp k => (c.Delete k).1
  | .clearOp => (c.Clear).1
  | .sweepOp now => c.deleteExpired now

/-- Apply a sequence of cache operations in order. -/
def applyOps (c : MemoryCache) : List CacheOp → MemoryCache
  | [] => c
  | op :: ops => applyOps (applyOp c op) ops

/-- An operation sets key k when it is a setOp with that key. -/
def setsKey (k : String) : CacheOp → Prop
  | .setOp _ key _ _ => key = k
  | _ => False

instance (k : String) (op : CacheOp) : Decidable (setsKey k op) := by
  cases op <;> simp [setsKey] <;> infer_instance

end cache

namespace scheduler

open cache

/-- scheduler.Task: a task's data (identifier and interval in seconds).
The Execute behaviour is supplied separately where a claim needs it. -/
structure Task where
  id : String
  interval : Int
deriving Repr, DecidableEq

/-- scheduler.inMemoryScheduler: the task map, the set of task ids that hold
a live cancel function (the keys of taskCtxs), and the running flag. -/
structure InMemoryScheduler where
  tasks : List (String × Task)
  taskCtxs : List String
  running : Bool
deriving Repr, DecidableEq

/-- scheduler.NewInMemoryScheduler: empty maps, not running. -/
def NewInMemoryScheduler : InMemoryScheduler := ⟨[], [], false⟩

/-- inMemoryScheduler.startTask (registry effect): records the task's cancel
function under its id; the spawned goroutine itself is modelled by
`startTaskLoop` below. -/
def InMemoryScheduler.startTask (s : InMemoryScheduler) (t : Task) :
    InMemoryScheduler :=
  { s with taskCtxs := t.id :: s.taskCtxs.filter (fun x => !(x == t.id)) }

/-- inMemoryScheduler.AddTask: ErrTaskExists if the id is registered; else
stores the task and, if running, starts it immediately. -/
def InMemoryScheduler.AddTask (s : InMemoryScheduler) (t : Task) :
    InMemoryScheduler × Option GoErr :=
  if (s.tasks.find? (fun p => p.1 == t.id)).isSome then (s, some .taskExists)
  else
    let s' : InMemoryScheduler := { s with tasks := (t.id, t) :: s.tasks }
    if s.running then (s'.startTask t, none) else (s', none)

/-- inMemoryScheduler.RemoveTask: ErrTaskNotFound if unknown; else cancels
and deletes the task's context and deletes the task. -/
def InMemoryScheduler.RemoveTask (s : InMemoryScheduler) (id : String) :
    InMemoryScheduler × Option GoErr :=
  if (s.tasks.find? (fun p => p.1 == id)).isNone then (s, some .taskNotFound)
  else
    ({ s with
        taskCtxs := s.taskCtxs.filter (fun x => !(x == id)),
        tasks := s.tasks.eraseP (fun p => p.1 == id) }, none)

/-- inMemoryScheduler.Start: ErrSchedulerRunning if already running; else
marks running and starts every registered task. -/
def InMemoryScheduler.Start (s : InMemoryScheduler) :
    InMemoryScheduler × Option GoErr :=
  if s.running then (s, some .schedulerRunning)
  else
    (s.tasks.foldl (fun acc p => acc.startTask p.2) { s with running := true },
      none)

/-- inMemoryScheduler.Stop: ErrSchedulerStopped if not running; else marks
stopped, cancels every task context and clears the context map. -/
def InMemoryScheduler.Stop (s : InMemoryScheduler) :
    InMemoryScheduler × Option GoErr :=
  if !s.running then (s, some .schedulerStopped)
  else ({ s with running := false, taskCtxs := [] }, none)

/-- inMemoryScheduler.GetTask: ErrTaskNotFound if absent. -/
def InMemoryScheduler.GetTask (s : InMemoryScheduler) (id : String) :
    Except GoErr Task :=
  match s.tasks.find? (fun p => p.1 == id) with
  | none => .error .taskNotFound
  | some p => .ok p.2

/-- inMemoryScheduler.ListTasks: all registered tasks. -/
def InMemoryScheduler.ListTasks (s : InMemoryScheduler) : List Task :=
  s.tasks.map (fun p => p.2)

/-- What the per-task goroutine observes at each iteration of its select
loop: either the task context's Done channel fires (cancellation) or the
ticker fires (period = interval seconds). -/
inductive LoopEvent where
  | cancel
  | tick
deriving Repr, DecidableEq

/-- inMemoryScheduler.executeTask: runs the n-th execution; when it returns
an error the error is reported (returned here as the log line list) and
nothing else happens. `execErr n` is the error the task's Execute returns
on its n-th run. -/
def executeTask (execErr : Nat → Option String) (n : Nat) : List String :=
  match execErr n with
  | some e => ["Failed to execute task: " ++ e]
  | none => []

/-- The select loop of startTask's goroutine after the immediate first
execution: on Done, return; on a tick, execute again. Returns the indices
of the executions performed and the reported log lines. -/
def loopAux (execErr : Nat → Option String) :
    Nat → List LoopEvent → List Nat × List String
  | _, [] => ([], [])
  | _, .cancel :: _ => ([], [])
  | n, .tick :: rest =>
    let logs := executeTask execErr n
    let r := loopAux execErr (n + 1) rest
    (n :: r.1, logs ++ r.2)

/-- inMemoryScheduler.startTask's goroutine: execute immediately once, then
run the select loop over the observed events. -/
def startTaskLoop (execErr : Nat → Option String) (events : List LoopEvent) :
    List Nat × List String :=
  let logs0 := executeTask execErr 0
  let r := loopAux execErr 1 events
  (0 :: r.1, logs0 ++ r.2)

/-- The ticker period of a task's loop: `time.Duration(task.Interval()) *
time.Second`, in nanoseconds. -/
def tickerPeriod (t : Task) : Int := t.interval * 1000000000

end scheduler

namespace crawler

open models cache scheduler

/-- crawler.Source: the capability interface; Fetch's result for the one
invocation under consideration is the field fetchResult (raw bytes or an
error), Parse is a pure function of the raw bytes. -/
structure Source where
  name : String
  url : String
  fetchResult : Except GoErr (List Nat)
  parse : List Nat → Except GoErr (List Item)
  interval : Int
  categories : List String

/-- A subscriber channel: its bounded buffer of Item-list batches. -/
structure Chan where
  capacity : Nat
  buffer : List (List Item)
deriving Repr, DecidableEq

/-- A non-blocking channel send (`select { case ch <- items: default: }`):
enqueue when the buffer has free capacity and report true, else leave the
buffer unchanged and report false. -/
def Chan.trySend (ch : Chan) (items : List Item) : Chan × Bool :=
  if ch.buffer.length < ch.capacity then
    ({ ch with buffer := ch.buffer ++ [items] }, true)
  else (ch, false)

/-- crawler.engineImpl: source map, subscriber map, cache, running flag and
the owned scheduler (contexts/cancel functions are not value state). -/
structure EngineImpl where
  sources : List (String × Source)
  subscribers : List (String × List Chan)
  cache : MemoryCache
  running : Bool
  sched : InMemoryScheduler

/-- crawler.NewEngine: empty maps, not running, fresh scheduler. -/
def NewEngine (c : MemoryCache) : EngineImpl :=
  ⟨[], [], c, false, NewInMemoryScheduler⟩

/-- The crawlTask wrapping a source: ID = source name, Interval = source
interval. -/
def crawlTask (s : Source) : Task := ⟨s.name, s.interval⟩

/-- engineImpl.notifySubscribers: attempt one non-blocking send of the full
batch to each channel subscribed for sourceName, in order; a full channel
is skipped. Channels of other sources are untouched. -/
def EngineImpl.notifySubscribers (e : EngineImpl) (sourceName : String)
    (items : List Item) : EngineImpl :=
  { e with
      subscribers := e.subscribers.map (fun p =>
        if p.1 == sourceName then (p.1, p.2.map (fun ch => (ch.trySend items).1))
        else p) }

/-- engineImpl.RegisterSource: SourceExists error if the name is taken; else
store the source and, when running, add its crawlTask to the scheduler
(returning AddTask's error). -/
def EngineImpl.RegisterSource (e : EngineImpl) (s : Source) :
    EngineImpl × Option GoErr :=
  if (e.sources.find? (fun p => p.1 == s.name)).isSome then
    (e, some (.msg ("source " ++ s.name ++ " already registered")))
  else
    let e' : EngineImpl := { e with sources := (s.name, s) :: e.sources }
    if e.running then
      let r := e'.sched.AddTask (crawlTask s)
      ({ e' with sched := r.1 }, r.2)
    else (e', none)

/-- engineImpl.UnregisterSource: SourceNotFound error if absent; else delete
the source and, when running, remove its task from the scheduler
(returning RemoveTask's error). -/
def EngineImpl.UnregisterSource (e : EngineImpl) (name : String) :
    EngineImpl × Option GoErr :=
  if (e.sources.find? (fun p => p.1 == name)).isNone then
    (e, some (.msg ("source " ++ name ++ " not found")))
  else
    let e' : EngineImpl := { e with sources := e.sources.eraseP (fun p => p.1 == name) }
    if e.running then
      let r := e'.sched.RemoveTask name
      ({ e' with sched := r.1 }, r.2)
    else (e', none)

/-- Go `len` on a possibly-nil slice. -/
def goLen (v : Option (List Item)) : Nat :=
  match v with
  | none => 0
  | some l => l.length

/-- engineImpl.FetchItem at instant now. Returns the new engine state, the
(items, error) result, and how many times the source's Fetch operation was
invoked during the call. -/
def EngineImpl.FetchItem (e : EngineImpl) (now : Int) (sourceName : String) :
    EngineImpl × Except GoErr (List Item) × Nat :=
  match e.sources.find? (fun p => p.1 == sourceName) with
  | none => (e, .error (.msg ("source " ++ sourceName ++ " not found")), 0)
  | some p =>
    let source := p.2
    let got := e.cache.Get now sourceName
    if got.2 = none ∧ 0 < goLen got.1 then (e, .ok (got.1.getD []), 0)
    else
      match source.fetchResult with
      | .error err => (e, .error err, 1)
      | .ok content =>
        match source.parse content with
        | .error err => (e, .error err, 1)
        | .ok items =>
          let e' : EngineImpl :=
            { e with cache := (e.cache.Set now sourceName items
                                (source.interval * 1000000000)).1 }
          (e'.notifySubscribers sourceName items, .ok items, 1)

/-- engineImpl.fetchAndProcess at instant now: fetch, parse, and on success
cache (TTL = interval seconds) and notify; on any failure report and
return leaving the state untouched. -/
def EngineImpl.fetchAndProcess (e : EngineImpl) (now : Int) (source : Source) :
    EngineImpl :=
  match source.fetchResult with
  | .error _ => e
  | .ok content =>
    match source.parse content with
    | .error _ => e
    | .ok items =>
      let name := source.name
      let e' : EngineImpl :=
        { e with cache := (e.cache.Set now name items
                            (source.interval * 1000000000)).1 }
      e'.notifySubscribers name items

/-- engineImpl.Subscribe: SourceNotFound if the source is unknown; else
append the channel to the source's subscriber list. -/
def EngineImpl.Subscribe (e : EngineImpl) (sourceName : String) (ch : Chan) :
    EngineImpl × Option GoErr :=
  if (e.sources.find? (fun p => p.1 == sourceName)).isNone then
    (e, some (.msg ("source " ++ sourceName ++ " not found")))
  else if (e.subscribers.find? (fun p => p.1 == sourceName)).isSome then
    ({ e with
        subscribers := e.subscribers.map (fun p =>
          if p.1 == sourceName then (p.1, p.2 ++ [ch]) else p) }, none)
  else
    ({ e with subscribers := (sourceName, [ch]) :: e.subscribers }, none)

end crawler

namespace fixtures

open models cache scheduler crawler

/-- The fixed Item of the spec's end-to-end scenario ({ID:"1", Title:"X"}). -/
def sampleItem : Item :=
  ⟨"1", "X", "http://example.com/1", "", "test", "", [], 0, 0, 0⟩

/-- A cache holding one entry for "k" that expires at instant 5. -/
def c8cache : MemoryCache := ⟨[("k", ⟨[sampleItem], 5⟩)]⟩

/-- A cache holding one never-expiring entry for "k" (expiration 0). -/
def c8cache0 : MemoryCache := ⟨[("k", ⟨[sampleItem], 0⟩)]⟩

/-- The mock source of the spec's end-to-end scenario: name "test",
interval 60, fetch returns fixed bytes, parse returns [sampleItem]. -/
def testSource : Source :=
  { name := "test", url := "http://example.com",
    fetchResult := .ok [104, 105],
    parse := fun _ => .ok [sampleItem],
    interval := 60, categories := ["tech"] }

/-- A source whose fetch fails. -/
def failFetchSource : Source :=
  { testSource with name := "bad", fetchResult := .error (.msg "connection refused") }

/-- A source whose fetch succeeds and whose parse fails. -/
def failParseSource : Source :=
  { testSource with name := "ugly", parse := fun _ => .error (.msg "bad html") }

/-- An engine with "test" registered, one subscriber channel of capacity 2
for it, an empty cache, not running. -/
def testEngine : EngineImpl :=
  { sources := [("test", testSource)],
    subscribers := [("test", [⟨2, []⟩])],
    cache := NewMemoryCache,
    running := false,
    sched := NewInMemoryScheduler }

/-- testEngine with a warm (never-expiring) cache entry for "test". -/
def warmEngine : EngineImpl :=
  { testEngine with cache := ⟨[("test", ⟨[sampleItem], 0⟩)]⟩ }

/-- An engine whose only source "bad" fails to fetch. -/
def failFetchEngine : EngineImpl :=
  { testEngine with sources := [("bad", failFetchSource)] }

/-- An engine whose only source "ugly" fetches but fails to parse. -/
def failParseEngine : EngineImpl :=
  { testEngine with sources := [("ugly", failParseSource)] }

/-- A running scheduler holding one task. -/
def runningSched : InMemoryScheduler :=
  ⟨[("a", ⟨"a", 60⟩)], ["a"], true⟩

end fixtures

/-! ## Helper lemmas -/

theorem find?_filter_eq_none {α : Type} (l : List α) (p q : α → Bool)
    (h : l.find? p = none) : (l.filter q).find? p = none := by
  rw [List.find?_eq_none] at *
  intro x hx
  exact h x (List.mem_of_mem_filter hx)

theorem find?_filter_eq_some {α : Type} (l : List α) (p q : α → Bool) (a : α)
    (h : l.find? p = some a) (hq : q a = true) :
    (l.filter q).find? p = some a := by
  induction l with
  | nil => simp at h
  | cons x xs ih =>
    by_cases hx : p x = true
    · rw [List.find?_cons_of_pos _ hx] at h
      injection h with h2
      subst h2
      rw [List.filter_cons_of_pos hq]
      exact List.find?_cons_of_pos _ hx
    · have hx' : ¬ (p x = true) := hx
      rw [List.find?_cons_of_neg _ hx'] at h
      by_cases hqx : q x = true
      · rw [List.filter_cons_of_pos hqx, List.find?_cons_of_neg _ hx']
        exact ih h
      · rw [List.filter_cons_of_neg (by simpa using hqx)]
        exact ih h

namespace cache

open models

/-- Get never returns an error. -/
theorem MemoryCache.Get_snd (c : MemoryCache) (now : Int) (key : String) :
    (c.Get now key).2 = none := by
  unfold MemoryCache.Get
  split
  · rfl
  · split
    · rfl
    · rfl

/-- A key that no operation of a sequence sets stays unbound. -/
theorem applyOps_find?_eq_none (k : String) (ops : List CacheOp)
    (c : MemoryCache) (hops : ∀ op ∈ ops, ¬ setsKey k op)
    (h : c.items.find? (fun p => p.1 == k) = none) :
    (applyOps c ops).items.find? (fun p => p.1 == k) = none := by
  induction ops generalizing c with
  | nil => exact h
  | cons op ops ih =>
    have hop : ¬ setsKey k op := hops op (List.mem_cons_self op ops)
    have hstep : (applyOp c op).items.find? (fun p => p.1 == k) = none := by
      cases op with
      | setOp now key v exp =>
        have hkey : ¬ (key = k) := hop
        simp only [applyOp, MemoryCache.Set]
        rw [List.find?_cons_of_neg _ (by simpa using hkey)]
        exact find?_filter_eq_none _ _ _ h
      | deleteOp key => exact find?_filter_eq_none _ _ _ h
      | clearOp => rfl
      | sweepOp now => exact find?_filter_eq_none _ _ _ h
    exact ih (applyOp c op) (fun o ho => hops o (List.mem_cons_of_mem _ ho)) hstep

/-- Claim C2: Get on a key never Set (by any operation sequence from a fresh
cache) returns an absent result and no error; Set(k,v,ttl>0) followed
immediately by Get(k) returns v; once more than ttl has elapsed since the
Set, Get(k) returns an absent result; Set, Get, Delete and Clear never
return an error. -/
theorem C2_cache_ttl_contract (c : MemoryCache) (k : String) (v : List Item)
    (ttl t t' now : Int) (ops : List CacheOp)
    (hops : ∀ op ∈ ops, ¬ setsKey k op)
    (httl : 0 < ttl) (ht : 0 ≤ t) (ht' : t + ttl < t') :
    (applyOps NewMemoryCache ops).Get now k = (none, none) ∧
    ((c.Set t k v ttl).1.Get t k) = (some v, none) ∧
    ((c.Set t k v ttl).1.Get t' k) = (none, none) ∧
    (c.Set t k v ttl).2 = none ∧ (c.Delete k).2 = none ∧
    (c.Clear).2 = none ∧ (c.Get now k).2 = none := by
  refine ⟨?_, ?_, ?_, rfl, rfl, rfl, MemoryCache.Get_snd c now k⟩
  · have h := applyOps_find?_eq_none k ops NewMemoryCache hops rfl
    unfold MemoryCache.Get
    rw [h]
  · unfold MemoryCache.Get MemoryCache.Set
    rw [List.find?_cons_of_pos _ (by simp)]
    simp only [if_pos httl]
    rw [if_neg (by omega)]
  · unfold MemoryCache.Get MemoryCache.Set
    rw [List.find?_cons_of_pos _ (by simp)]
    simp only [if_pos httl]
    rw [if_pos (by omega)]

/-- Witness for C2 at k = "k", v = [sampleItem], ttl = 5, set at t = 0,
read back at t = 0 and at t' = 10, after ops that never set "k". -/
theorem C2_cache_ttl_contract_witness :
    (applyOps NewMemoryCache
        [CacheOp.setOp 0 "x" [] 1, CacheOp.deleteOp "k", CacheOp.clearOp,
          CacheOp.sweepOp 3]).Get 3 "k" = (none, none) ∧
    ((NewMemoryCache.Set 0 "k" [fixtures.sampleItem] 5).1.Get 0 "k") =
      (some [fixtures.sampleItem], none) ∧
    ((NewMemoryCache.Set 0 "k" [fixtures.sampleItem] 5).1.Get 10 "k") =
      (none, none) ∧
    (NewMemoryCache.Set 0 "k" [fixtures.sampleItem] 5).2 = none ∧
    (NewMemoryCache.Delete "k").2 = none ∧
    (NewMemoryCache.Clear).2 = none ∧
    (NewMemoryCache.Get 3 "k").2 = none :=
  C2_cache_ttl_contract NewMemoryCache "k" [fixtures.sampleItem] 5 0 10 3
    [CacheOp.setOp 0 "x" [] 1, CacheOp.deleteOp "k", CacheOp.clearOp,
      CacheOp.sweepOp 3]
    (by decide) (by decide) (by decide) (by decide)

/-- Claim C8 counterexample: for the entry stored under "k" with expiration
instant 5 (which is > 0, so the "otherwise" branch of the claim applies), a
Get at the expiration instant itself (now = 5, i.e. "at the expiration
timestamp") still returns the stored value, not an empty/absent result:
the code expires an entry only strictly after its expiration instant. -/
theorem C8_counterexample_get_at_expiration :
    fixtures.c8cache.items.find? (fun p => p.1 == "k") =
      some ("k", ⟨[fixtures.sampleItem], 5⟩) ∧
    (0 : Int) < 5 ∧
    fixtures.c8cache.Get 5 "k" = (some [fixtures.sampleItem], none) := by
  decide

/-- Claim C8 (amended): an entry with expiration ≤ 0 never expires (Get
returns it at every time, the sweep never removes it); otherwise the entry
is visible to readers while the current time is at or before (≤) the
expiration timestamp, and a Get strictly after it returns an absent
result. -/
theorem C8_expiration_visibility (c : MemoryCache) (k : String)
    (v : List Item) (exp now : Int)
    (h : c.items.find? (fun p => p.1 == k) = some (k, ⟨v, exp⟩)) :
    (exp ≤ 0 →
      c.Get now k = (some v, none) ∧
      (c.deleteExpired now).items.find? (fun p => p.1 == k) =
        some (k, ⟨v, exp⟩)) ∧
    (0 < exp → now ≤ exp → c.Get now k = (some v, none)) ∧
    (0 < exp → exp < now → c.Get now k = (none, none)) := by
  refine ⟨fun hexp => ⟨?_, ?_⟩, fun hexp hnow => ?_, fun hexp hnow => ?_⟩
  · simp only [MemoryCache.Get, h]
    rw [if_neg (by omega)]
  · exact find?_filter_eq_some _ _ _ _ h (by simp; omega)
  · simp only [MemoryCache.Get, h]
    rw [if_neg (by omega)]
  · simp only [MemoryCache.Get, h]
    rw [if_pos (by omega)]

/-- Witness for the amended C8: the never-expiring entry (expiration 0) is
visible at time 100 and survives a sweep at time 100; the entry expiring
at 5 is visible at time 4 and absent at time 6. -/
theorem C8_expiration_visibility_witness :
    fixtures.c8cache0.Get 100 "k" = (some [fixtures.sampleItem], none) ∧
    (fixtures.c8cache0.deleteExpired 100).items.find? (fun p => p.1 == "k") =
      some ("k", ⟨[fixtures.sampleItem], 0⟩) ∧
    fixtures.c8cache.Get 4 "k" = (some [fixtures.sampleItem], none) ∧
    fixtures.c8cache.Get 6 "k" = (none, none) := by
  have h0 := C8_expiration_visibility fixtures.c8cache0 "k"
    [fixtures.sampleItem] 0 100 (by decide)
  have h4 := C8_expiration_visibility fixtures.c8cache "k"
    [fixtures.sampleItem] 5 4 (by decide)
  have h6 := C8_expiration_visibility fixtures.c8cache "k"
    [fixtures.sampleItem] 5 6 (by decide)
  exact ⟨(h0.1 (by decide)).1, (h0.1 (by decide)).2,
    h4.2.1 (by decide) (by decide), h6.2.2 (by decide) (by decide)⟩

end cache

namespace scheduler

open cache

/-- A successful AddTask prepends the task binding to the task map. -/
theorem AddTask_tasks_of_ok (s : InMemoryScheduler) (t : Task)
    (h : (s.AddTask t).2 = none) :
    (s.AddTask t).1.tasks = (t.id, t) :: s.tasks := by
  unfold InMemoryScheduler.AddTask at *
  by_cases hf : (s.tasks.find? (fun p => p.1 == t.id)).isSome = true
  · rw [if_pos hf] at h
    exact absurd h (by simp)
  · rw [if_neg hf] at *
    by_cases hr : s.running = true
    · rw [if_pos hr]
      rfl
    · rw [if_neg hr]

/-- AddTask on an already-registered id fails with ErrTaskExists and leaves
the scheduler unchanged. -/
theorem AddTask_of_found (s : InMemoryScheduler) (t : Task)
    (h : (s.tasks.find? (fun p => p.1 == t.id)).isSome = true) :
    s.AddTask t = (s, some GoErr.taskExists) := by
  unfold InMemoryScheduler.AddTask
  rw [if_pos h]

/-- GetTask returns the task of the binding find? locates. -/
theorem GetTask_of_found (s : InMemoryScheduler) (id : String)
    (q : String × Task) (h : s.tasks.find? (fun p => p.1 == id) = some q) :
    s.GetTask id = Except.ok q.2 := by
  unfold InMemoryScheduler.GetTask
  rw [h]

/-- Claim C5: Start on a running scheduler fails with ErrSchedulerRunning
and changes nothing; Stop on a non-running scheduler fails with
ErrSchedulerStopped and changes nothing; from a fresh scheduler a Start
followed by a Stop both succeed. -/
theorem C5_scheduler_lifecycle (s : InMemoryScheduler) :
    (s.running = true → s.Start = (s, some GoErr.schedulerRunning)) ∧
    (s.running = false → s.Stop = (s, some GoErr.schedulerStopped)) ∧
    NewInMemoryScheduler.Start.2 = none ∧
    NewInMemoryScheduler.Start.1.Stop.2 = none := by
  refine ⟨fun h => ?_, fun h => ?_, by decide, by decide⟩
  · unfold InMemoryScheduler.Start
    rw [if_pos h]
  · unfold InMemoryScheduler.Stop
    rw [if_pos (by simp [h])]

/-- Witness for C5: the concrete running scheduler rejects Start and the
fresh scheduler rejects Stop. -/
theorem C5_scheduler_lifecycle_witness :
    fixtures.runningSched.Start =
      (fixtures.runningSched, some GoErr.schedulerRunning) ∧
    NewInMemoryScheduler.Stop =
      (NewInMemoryScheduler, some GoErr.schedulerStopped) :=
  ⟨(C5_scheduler_lifecycle fixtures.runningSched).1 rfl,
    (C5_scheduler_lifecycle NewInMemoryScheduler).2.1 rfl⟩

/-- Claim C6: after a successful AddTask(t), a second AddTask of any task
with the same id fails with ErrTaskExists, leaves the state unchanged and
GetTask still returns the first task; RemoveTask on an unknown id fails
with ErrTaskNotFound; a successful RemoveTask of a present id shrinks
ListTasks by exactly one. -/
theorem C6_registry_add_remove (s : InMemoryScheduler) (t t' : Task)
    (id : String) (hid : t'.id = t.id) :
    ((s.AddTask t).2 = none →
      (s.AddTask t).1.AddTask t' = ((s.AddTask t).1, some GoErr.taskExists) ∧
      ((s.AddTask t).1.AddTask t').1.GetTask t.id = Except.ok t) ∧
    (s.tasks.find? (fun p => p.1 == id) = none →
      s.RemoveTask id = (s, some GoErr.taskNotFound)) ∧
    (∀ q, s.tasks.find? (fun p => p.1 == id) = some q →
      (s.RemoveTask id).2 = none ∧
      ((s.RemoveTask id).1.ListTasks).length + 1 = (s.ListTasks).length) := by
  refine ⟨fun h => ?_, fun h => ?_, fun q hq => ?_⟩
  · have htasks := AddTask_tasks_of_ok s t h
    have hfind : (s.AddTask t).1.tasks.find? (fun p => p.1 == t'.id) =
        some (t.id, t) := by
      rw [htasks, hid, List.find?_cons_of_pos _ (by simp)]
    have hsecond := AddTask_of_found (s.AddTask t).1 t' (by simp [hfind])
    refine ⟨hsecond, ?_⟩
    rw [hsecond]
    have hfindt : (s.AddTask t).1.tasks.find? (fun p => p.1 == t.id) =
        some (t.id, t) := by
      rw [htasks, List.find?_cons_of_pos _ (by simp)]
    exact GetTask_of_found _ _ _ hfindt
  · unfold InMemoryScheduler.RemoveTask
    rw [if_pos (by simp [h])]
  · have hmem := List.mem_of_find?_eq_some hq
    have hpq := List.find?_some hq
    unfold InMemoryScheduler.RemoveTask
    rw [if_neg (by simp [hq])]
    refine ⟨rfl, ?_⟩
    unfold InMemoryScheduler.ListTasks
    simp only [List.length_map]
    have hlen : 0 < s.tasks.length := List.length_pos_of_mem hmem
    rw [List.length_eraseP_of_mem hmem hpq]
    omega

/-- Witness for C6: duplicate AddTask of id "a" on a fresh scheduler fails
with ErrTaskExists and GetTask still returns the first task; RemoveTask of
the unknown id "zz" fails; RemoveTask of the present id "a" succeeds and
shrinks ListTasks by one. -/
theorem C6_registry_add_remove_witness :
    ((NewInMemoryScheduler.AddTask ⟨"a", 60⟩).1.AddTask ⟨"a", 30⟩ =
      ((NewInMemoryScheduler.AddTask ⟨"a", 60⟩).1, some GoErr.taskExists) ∧
      ((NewInMemoryScheduler.AddTask ⟨"a", 60⟩).1.AddTask ⟨"a", 30⟩).1.GetTask "a" =
        Except.ok ⟨"a", 60⟩) ∧
    NewInMemoryScheduler.RemoveTask "zz" =
      (NewInMemoryScheduler, some GoErr.taskNotFound) ∧
    ((fixtures.runningSched.RemoveTask "a").2 = none ∧
      ((fixtures.runningSched.RemoveTask "a").1.ListTasks).length + 1 =
        (fixtures.runningSched.ListTasks).length) :=
  ⟨(C6_registry_add_remove NewInMemoryScheduler ⟨"a", 60⟩ ⟨"a", 30⟩ "zz" rfl).1
      (by decide),
    (C6_registry_add_remove NewInMemoryScheduler ⟨"a", 60⟩ ⟨"a", 30⟩ "zz" rfl).2.1
      (by decide),
    (C6_registry_add_remove fixtures.runningSched ⟨"a", 60⟩ ⟨"a", 30⟩ "a" rfl).2.2
      ("a", ⟨"a", 60⟩) (by decide)⟩

/-- The select loop's executions are exactly one per tick before the first
cancellation, numbered consecutively from the starting index, whatever the
executions' error results. -/
theorem loopAux_fst (e : Nat → Option String) (evts : List LoopEvent)
    (n : Nat) :
    (loopAux e n evts).1 =
      (List.range (evts.takeWhile (fun ev => ev == LoopEvent.tick)).length).map
        (fun x => x + n) := by
  induction evts generalizing n with
  | nil => simp [loopAux]
  | cons ev rest ih =>
    cases ev with
    | cancel => simp [loopAux, List.takeWhile_cons]
    | tick =>
      simp only [loopAux, List.takeWhile_cons, ih (n + 1)]
      simp only [beq_self_eq_true, if_true, List.length_cons,
        List.range_succ_eq_map, List.map_cons, List.map_map, List.cons.injEq]
      refine ⟨by omega, ?_⟩
      congr 1
      funext x
      simp only [Function.comp_apply]
      omega

/-- The reported log lines of the select loop are exactly the reports of the
executions it performs, in order. -/
theorem loopAux_snd (e : Nat → Option String) (evts : List LoopEvent)
    (n : Nat) :
    (loopAux e n evts).2 = (loopAux e n evts).1.flatMap (executeTask e) := by
  induction evts generalizing n with
  | nil => simp [loopAux]
  | cons ev rest ih =>
    cases ev with
    | cancel => simp [loopAux]
    | tick => simp [loopAux, List.flatMap_cons, ih (n + 1)]

/-- Claim C3: the per-task loop executes the task once immediately
(execution 0), then once per ticker tick until the first cancellation
signal, at which point it stops; the execution trace does not depend on the
executions' error results (a failing execution is reported and does not
terminate the loop), and the reports are exactly those of the performed
executions. -/
theorem C3_task_loop (execErr execErr2 : Nat → Option String)
    (events : List LoopEvent) :
    (startTaskLoop execErr events).1 =
      List.range
        ((events.takeWhile (fun ev => ev == LoopEvent.tick)).length + 1) ∧
    (startTaskLoop execErr events).1 = (startTaskLoop execErr2 events).1 ∧
    (startTaskLoop execErr events).2 =
      (startTaskLoop execErr events).1.flatMap (executeTask execErr) := by
  have key : ∀ e : Nat → Option String, (startTaskLoop e events).1 =
      List.range
        ((events.takeWhile (fun ev => ev == LoopEvent.tick)).length + 1) := by
    intro e
    have h1 : (startTaskLoop e events).1 = 0 :: (loopAux e 1 events).1 := rfl
    rw [h1, loopAux_fst, List.range_succ_eq_map]
  refine ⟨key execErr, (key execErr).trans (key execErr2).symm, ?_⟩
  simp [startTaskLoop, loopAux_snd, List.flatMap_cons]

end scheduler

namespace crawler

open models cache scheduler

/-- Claim C4: a scheduled fetchAndProcess leaves the engine (cache and every
subscriber queue included) untouched when the fetch step fails, and likewise
when the parse step fails; only when both succeed does it store the items
in the Cache under the source's name with TTL = interval seconds and then
fan them out to the source's subscribers, leaving sources, running flag and
scheduler unchanged. -/
theorem C4_fetchAndProcess_frame (e : EngineImpl) (now : Int) (src : Source) :
    (∀ ferr, src.fetchResult = Except.error ferr →
      e.fetchAndProcess now src = e) ∧
    (∀ content perr, src.fetchResult = Except.ok content →
      src.parse content = Except.error perr →
      e.fetchAndProcess now src = e) ∧
    (∀ content items, src.fetchResult = Except.ok content →
      src.parse content = Except.ok items →
      (e.fetchAndProcess now src).cache =
        (e.cache.Set now src.name items (src.interval * 1000000000)).1 ∧
      (e.fetchAndProcess now src).subscribers =
        (e.notifySubscribers src.name items).subscribers ∧
      (e.fetchAndProcess now src).sources = e.sources ∧
      (e.fetchAndProcess now src).running = e.running ∧
      (e.fetchAndProcess now src).sched = e.sched) := by
  refine ⟨fun ferr hf => ?_, fun content perr hf hp => ?_,
    fun content items hf hp => ?_⟩
  · unfold EngineImpl.fetchAndProcess
    rw [hf]
  · unfold EngineImpl.fetchAndProcess
    rw [hf]
    dsimp only
    rw [hp]
  · unfold EngineImpl.fetchAndProcess
    rw [hf]
    dsimp only
    rw [hp]
    exact ⟨rfl, rfl, rfl, rfl, rfl⟩

/-- Witness for C4 at the concrete failing-fetch, failing-parse and
successful sources of the fixtures. -/
theorem C4_fetchAndProcess_frame_witness :
    fixtures.testEngine.fetchAndProcess 7 fixtures.failFetchSource =
      fixtures.testEngine ∧
    fixtures.testEngine.fetchAndProcess 7 fixtures.failParseSource =
      fixtures.testEngine ∧
    (fixtures.testEngine.fetchAndProcess 7 fixtures.testSource).cache =
      (fixtures.testEngine.cache.Set 7 "test" [fixtures.sampleItem]
        (60 * 1000000000)).1 ∧
    (fixtures.testEngine.fetchAndProcess 7 fixtures.testSource).subscribers =
      (fixtures.testEngine.notifySubscribers "test"
        [fixtures.sampleItem]).subscribers :=
  have h1 := C4_fetchAndProcess_frame fixtures.testEngine 7
    fixtures.failFetchSource
  have h2 := C4_fetchAndProcess_frame fixtures.testEngine 7
    fixtures.failParseSource
  have h3 := C4_fetchAndProcess_frame fixtures.testEngine 7 fixtures.testSource
  ⟨h1.1 (GoErr.msg "connection refused") rfl,
    h2.2.1 [104, 105] (GoErr.msg "bad html") rfl rfl,
    (h3.2.2 [104, 105] [fixtures.sampleItem] rfl rfl).1,
    (h3.2.2 [104, 105] [fixtures.sampleItem] rfl rfl).2.1⟩

/-- Claim C7: fan-out attempts one non-blocking delivery of the full batch
per subscribed target: the subscriber map keeps its shape, the binding for
the source is updated pointwise by trySend (every other binding untouched),
a target with free capacity receives the batch at the tail of its queue,
and a full target is skipped with its queue unchanged, so no target's
outcome depends on any other target. -/
theorem C7_fanout_nonblocking (e : EngineImpl) (sourceName : String)
    (items : List Item) (chans : List Chan) (ch : Chan) (j : Nat) :
    ((e.notifySubscribers sourceName items).subscribers.length =
      e.subscribers.length) ∧
    ((e.notifySubscribers sourceName items).subscribers[j]? =
      (e.subscribers[j]?).map (fun p =>
        if p.1 == sourceName then
          (p.1, p.2.map (fun c => (c.trySend items).1))
        else p)) ∧
    ((chans.map (fun c => (c.trySend items).1))[j]? =
      (chans[j]?).map (fun c => (c.trySend items).1)) ∧
    (ch.buffer.length < ch.capacity →
      (ch.trySend items).1.buffer = ch.buffer ++ [items] ∧
      (ch.trySend items).2 = true) ∧
    (ch.capacity ≤ ch.buffer.length →
      (ch.trySend items).1 = ch ∧ (ch.trySend items).2 = false) := by
  refine ⟨by simp [EngineImpl.notifySubscribers],
    by simp [EngineImpl.notifySubscribers, List.getElem?_map],
    by simp [List.getElem?_map], fun hfree => ?_, fun hfull => ?_⟩
  · unfold Chan.trySend
    rw [if_pos hfree]
    exact ⟨rfl, rfl⟩
  · unfold Chan.trySend
    rw [if_neg (by omega)]
    exact ⟨rfl, rfl⟩

/-- Witness for C7: a channel of capacity 2 with an empty buffer accepts the
batch; a channel of capacity 1 whose buffer already holds one batch drops
it. -/
theorem C7_fanout_nonblocking_witness :
    ((Chan.mk 2 []).trySend [fixtures.sampleItem]).1.buffer =
      [] ++ [[fixtures.sampleItem]] ∧
    ((Chan.mk 2 []).trySend [fixtures.sampleItem]).2 = true ∧
    ((Chan.mk 1 [[]]).trySend [fixtures.sampleItem]).1 = Chan.mk 1 [[]] ∧
    ((Chan.mk 1 [[]]).trySend [fixtures.sampleItem]).2 = false :=
  have h1 := C7_fanout_nonblocking fixtures.testEngine "test"
    [fixtures.sampleItem] [] (Chan.mk 2 []) 0
  have h2 := C7_fanout_nonblocking fixtures.testEngine "test"
    [fixtures.sampleItem] [] (Chan.mk 1 [[]]) 0
  ⟨(h1.2.2.2.1 (by decide)).1, (h1.2.2.2.1 (by decide)).2,
    (h2.2.2.2.2 (by decide)).1, (h2.2.2.2.2 (by decide)).2⟩


/-- Claim C1: FetchItem fails with SourceNotFound on an unregistered name;
on a registered source with a non-empty, unexpired cache entry it returns
the cached items with zero fetch invocations and an unchanged engine; on a
cache miss (absent, expired or empty entry) it returns the fetch error or
the parse error unchanged, leaving the engine (cache included) untouched,
and on success stores the items with TTL = interval seconds, fans them out
to subscribers and returns them. -/
theorem C1_FetchItem_correct (e : EngineImpl) (now : Int) (name : String) :
    (e.sources.find? (fun p => p.1 == name) = none →
      e.FetchItem now name =
        (e, Except.error (GoErr.msg ("source " ++ name ++ " not found")), 0)) ∧
    (∀ src v, e.sources.find? (fun p => p.1 == name) = some (name, src) →
      (e.cache.Get now name).1 = some v → v ≠ [] →
      e.FetchItem now name = (e, Except.ok v, 0)) ∧
    (∀ src ferr, e.sources.find? (fun p => p.1 == name) = some (name, src) →
      goLen (e.cache.Get now name).1 = 0 →
      src.fetchResult = Except.error ferr →
      e.FetchItem now name = (e, Except.error ferr, 1)) ∧
    (∀ src content perr,
      e.sources.find? (fun p => p.1 == name) = some (name, src) →
      goLen (e.cache.Get now name).1 = 0 →
      src.fetchResult = Except.ok content →
      src.parse content = Except.error perr →
      e.FetchItem now name = (e, Except.error perr, 1)) ∧
    (∀ src content items,
      e.sources.find? (fun p => p.1 == name) = some (name, src) →
      goLen (e.cache.Get now name).1 = 0 →
      src.fetchResult = Except.ok content →
      src.parse content = Except.ok items →
      (e.FetchItem now name).2.1 = Except.ok items ∧
      (e.FetchItem now name).2.2 = 1 ∧
      (e.FetchItem now name).1.cache =
        (e.cache.Set now name items (src.interval * 1000000000)).1 ∧
      (e.FetchItem now name).1.subscribers =
        (e.notifySubscribers name items).subscribers ∧
      (e.FetchItem now name).1.sources = e.sources ∧
      (e.FetchItem now name).1.running = e.running ∧
      (e.FetchItem now name).1.sched = e.sched) := by
  refine ⟨fun hfind => ?_, fun src v hfind hv hne => ?_,
    fun src ferr hfind hmiss hfetch => ?_,
    fun src content perr hfind hmiss hfetch hparse => ?_,
    fun src content items hfind hmiss hfetch hparse => ?_⟩
  · unfold EngineImpl.FetchItem
    rw [hfind]
  · unfold EngineImpl.FetchItem
    rw [hfind]
    dsimp only
    have hcond : (e.cache.Get now name).2 = none ∧
        0 < goLen (e.cache.Get now name).1 :=
      ⟨MemoryCache.Get_snd _ _ _, by rw [hv]; exact List.length_pos.mpr hne⟩
    rw [if_pos hcond, hv]
    rfl
  · unfold EngineImpl.FetchItem
    rw [hfind]
    dsimp only
    rw [if_neg (by simp [hmiss]), hfetch]
  · unfold EngineImpl.FetchItem
    rw [hfind]
    dsimp only
    rw [if_neg (by simp [hmiss]), hfetch]
    dsimp only
    rw [hparse]
  · unfold EngineImpl.FetchItem
    rw [hfind]
    dsimp only
    rw [if_neg (by simp [hmiss]), hfetch]
    dsimp only
    rw [hparse]
    exact ⟨rfl, rfl, rfl, rfl, rfl, rfl, rfl⟩

/-- Witness for C1: on the fixtures, FetchItem of the unknown name "nope"
fails with SourceNotFound; with a warm cache it returns the cached items
with zero fetch calls; a failing fetch and a failing parse surface their
errors; and the successful path returns the parsed items with one fetch
call, the updated cache and the notified subscribers. -/
theorem C1_FetchItem_correct_witness :
    fixtures.testEngine.FetchItem 7 "nope" =
      (fixtures.testEngine,
        Except.error (GoErr.msg "source nope not found"), 0) ∧
    fixtures.warmEngine.FetchItem 7 "test" =
      (fixtures.warmEngine, Except.ok [fixtures.sampleItem], 0) ∧
    fixtures.failFetchEngine.FetchItem 7 "bad" =
      (fixtures.failFetchEngine,
        Except.error (GoErr.msg "connection refused"), 1) ∧
    fixtures.failParseEngine.FetchItem 7 "ugly" =
      (fixtures.failParseEngine, Except.error (GoErr.msg "bad html"), 1) ∧
    (fixtures.testEngine.FetchItem 7 "test").2.1 =
      Except.ok [fixtures.sampleItem] ∧
    (fixtures.testEngine.FetchItem 7 "test").2.2 = 1 ∧
    (fixtures.testEngine.FetchItem 7 "test").1.cache =
      (fixtures.testEngine.cache.Set 7 "test" [fixtures.sampleItem]
        (60 * 1000000000)).1 ∧
    (fixtures.testEngine.FetchItem 7 "test").1.subscribers =
      (fixtures.testEngine.notifySubscribers "test"
        [fixtures.sampleItem]).subscribers :=
  have hnope := (C1_FetchItem_correct fixtures.testEngine 7 "nope").1 rfl
  have hwarm := (C1_FetchItem_correct fixtures.warmEngine 7 "test").2.1
    fixtures.testSource [fixtures.sampleItem] rfl rfl (by decide)
  have hbad := (C1_FetchItem_correct fixtures.failFetchEngine 7 "bad").2.2.1
    fixtures.failFetchSource (GoErr.msg "connection refused") rfl rfl rfl
  have hugly :=
    (C1_FetchItem_correct fixtures.failParseEngine 7 "ugly").2.2.2.1
      fixtures.failParseSource [104, 105] (GoErr.msg "bad html") rfl rfl rfl rfl
  have hok := (C1_FetchItem_correct fixtures.testEngine 7 "test").2.2.2.2
    fixtures.testSource [104, 105] [fixtures.sampleItem] rfl rfl rfl rfl
  ⟨hnope, hwarm, hbad, hugly, hok.1, hok.2.1, hok.2.2.1, hok.2.2.2.1⟩


/-- A successful RemoveTask erases the task's binding and keeps the running
flag. -/
theorem RemoveTask_of_ok (s : InMemoryScheduler) (id : String)
    (h : (s.RemoveTask id).2 = none) :
    (s.RemoveTask id).1.tasks = s.tasks.eraseP (fun p => p.1 == id) ∧
    (s.RemoveTask id).1.running = s.running := by
  unfold InMemoryScheduler.RemoveTask at *
  by_cases hf : (s.tasks.find? (fun p => p.1 == id)).isNone = true
  · rw [if_pos hf] at h
    exact absurd h (by simp)
  · rw [if_neg hf] at *
    exact ⟨rfl, rfl⟩

/-- UnregisterSource on a registered name, engine running: the result is the
erased source map with the scheduler's RemoveTask applied, the returned
error being RemoveTask's. -/
theorem Unregister_eq_running (e : EngineImpl) (name : String)
    (hf : (e.sources.find? (fun p => p.1 == name)).isNone = false)
    (hr : e.running = true) :
    e.UnregisterSource name =
      ({ e with
          sources := e.sources.eraseP (fun p => p.1 == name),
          sched := (e.sched.RemoveTask name).1 },
        (e.sched.RemoveTask name).2) := by
  unfold EngineImpl.UnregisterSource
  rw [if_neg (by simp [hf]), hr]
  rfl

/-- UnregisterSource on a registered name, engine stopped: the result is the
erased source map with everything else unchanged, and a nil error. -/
theorem Unregister_eq_stopped (e : EngineImpl) (name : String)
    (hf : (e.sources.find? (fun p => p.1 == name)).isNone = false)
    (hr : e.running = false) :
    e.UnregisterSource name =
      ({ e with sources := e.sources.eraseP (fun p => p.1 == name) }, none) := by
  unfold EngineImpl.UnregisterSource
  rw [if_neg (by simp [hf]), hr]
  rfl

/-- Claim C9: a successful UnregisterSource(name) removes only the source
map entry (and, when running, the corresponding scheduler task); the
subscriber map, cache and running flag are unchanged, so a fan-out for that
name after the unregistration still updates exactly the same subscriber
queues as before (targets remain registered and resume receiving batches
from any later source of the same name). -/
theorem C9_UnregisterSource_keeps_subscribers (e : EngineImpl)
    (name : String) (h : (e.UnregisterSource name).2 = none) :
    (e.UnregisterSource name).1.subscribers = e.subscribers ∧
    (e.UnregisterSource name).1.cache = e.cache ∧
    (e.UnregisterSource name).1.running = e.running ∧
    (e.UnregisterSource name).1.sources =
      e.sources.eraseP (fun p => p.1 == name) ∧
    (e.running = true →
      (e.UnregisterSource name).1.sched.tasks =
        e.sched.tasks.eraseP (fun p => p.1 == name)) ∧
    (e.running = false → (e.UnregisterSource name).1.sched = e.sched) ∧
    (∀ items, ((e.UnregisterSource name).1.notifySubscribers name
        items).subscribers = (e.notifySubscribers name items).subscribers) := by
  by_cases hf : (e.sources.find? (fun p => p.1 == name)).isNone = true
  · exfalso
    unfold EngineImpl.UnregisterSource at h
    rw [if_pos hf] at h
    exact absurd h (by simp)
  · have hf' : (e.sources.find? (fun p => p.1 == name)).isNone = false := by
      simpa using hf
    by_cases hr : e.running = true
    · have heq := Unregister_eq_running e name hf' hr
      have hrem : (e.sched.RemoveTask name).2 = none := by
        rw [heq] at h
        exact h
      have hsub : (e.UnregisterSource name).1.subscribers = e.subscribers := by
        rw [heq]
      refine ⟨hsub, by rw [heq], by rw [heq], by rw [heq],
        fun _ => ?_, fun hr0 => absurd hr (by simp [hr0]), fun items => ?_⟩
      · rw [heq]
        exact (RemoveTask_of_ok e.sched name hrem).1
      · unfold EngineImpl.notifySubscribers
        rw [hsub]
    · have hr' : e.running = false := by simpa using hr
      have heq := Unregister_eq_stopped e name hf' hr'
      have hsub : (e.UnregisterSource name).1.subscribers = e.subscribers := by
        rw [heq]
      refine ⟨hsub, by rw [heq], by rw [heq], by rw [heq],
        fun hr0 => absurd hr0 hr, fun _ => by rw [heq], fun items => ?_⟩
      unfold EngineImpl.notifySubscribers
      rw [hsub]

/-- Witness for C9: unregistering "test" from the concrete (stopped) engine
succeeds and leaves its subscriber map (and hence later fan-outs for
"test") unchanged while emptying the source map. -/
theorem C9_UnregisterSource_keeps_subscribers_witness :
    (fixtures.testEngine.UnregisterSource "test").1.subscribers =
      fixtures.testEngine.subscribers ∧
    (fixtures.testEngine.UnregisterSource "test").1.cache =
      fixtures.testEngine.cache ∧
    (fixtures.testEngine.UnregisterSource "test").1.sources =
      fixtures.testEngine.sources.eraseP (fun p => p.1 == "test") ∧
    ((fixtures.testEngine.UnregisterSource "test").1.notifySubscribers "test"
        [fixtures.sampleItem]).subscribers =
      (fixtures.testEngine.notifySubscribers "test"
        [fixtures.sampleItem]).subscribers :=
  have h := C9_UnregisterSource_keeps_subscribers fixtures.testEngine "test"
    rfl
  ⟨h.1, h.2.1, h.2.2.2.1, h.2.2.2.2.2.2 [fixtures.sampleItem]⟩

end crawler
